import Mathlib

/-!
Shallow embedding of the DASS-21 scoring backend (`src/main.py`,
`src/schemas.py`).

The core of the repository is the scoring endpoint `score_dass` together
with the static index sets (`DEPRESSION_IDX`, …), the severity band tables
(`DEP_THRESH`, …) and the band lookup `severity_for`.  Python integers are
modelled as `Int`, the `answers` field as `List Int`, and the fallible HTTP
response as `Except String DASSResult`.  The persistence collaborator
`create_document` lives outside the scoring core; its outcome is modelled
by an oracle `Option String` (`some id` = successful insert returning `id`,
`none` = any exception raised by the try-block).  The number of persistence
attempts actually made is recorded alongside the response so that
"no side effects on rejection" is expressible.
-/

namespace DASS

/-- `DASSResult` from `src/schemas.py`: the response model of the scoring
endpoint.  Severity labels are strings; `assessment_id` defaults to none. -/
structure DASSResult where
  depression_score : Int
  anxiety_score : Int
  stress_score : Int
  depression_severity : String
  anxiety_severity : String
  stress_severity : String
  total_score : Int
  assessment_id : Option String := none
  deriving Repr, DecidableEq

/-- `DEPRESSION_IDX` from `src/main.py` (1-based item numbers). -/
def DEPRESSION_IDX : List Nat := [3, 5, 10, 13, 16, 17, 21]

/-- `ANXIETY_IDX` from `src/main.py` (1-based item numbers). -/
def ANXIETY_IDX : List Nat := [2, 4, 7, 9, 15, 19, 20]

/-- `STRESS_IDX` from `src/main.py` (1-based item numbers). -/
def STRESS_IDX : List Nat := [1, 6, 8, 11, 12, 14, 18]

/-- `DEP_I = [i-1 for i in DEPRESSION_IDX]` from `src/main.py`. -/
def DEP_I : List Nat := DEPRESSION_IDX.map (fun i => i - 1)

/-- `ANX_I = [i-1 for i in ANXIETY_IDX]` from `src/main.py`. -/
def ANX_I : List Nat := ANXIETY_IDX.map (fun i => i - 1)

/-- `STR_I = [i-1 for i in STRESS_IDX]` from `src/main.py`. -/
def STR_I : List Nat := STRESS_IDX.map (fun i => i - 1)

/-- `DEP_THRESH` from `src/main.py`. -/
def DEP_THRESH : List (Int × Int × String) :=
  [(0, 4, "Normal"), (5, 6, "Mild"), (7, 10, "Moderate"),
   (11, 13, "Severe"), (14, 42, "Extremely Severe")]

/-- `ANX_THRESH` from `src/main.py`. -/
def ANX_THRESH : List (Int × Int × String) :=
  [(0, 3, "Normal"), (4, 5, "Mild"), (6, 7, "Moderate"),
   (8, 9, "Severe"), (10, 42, "Extremely Severe")]

/-- `STR_THRESH` from `src/main.py`. -/
def STR_THRESH : List (Int × Int × String) :=
  [(0, 7, "Normal"), (8, 9, "Mild"), (10, 12, "Moderate"),
   (13, 16, "Severe"), (17, 42, "Extremely Severe")]

/-- The `for lo, hi, label in bands` loop body of `severity_for`: returns the
label of the first band whose inclusive range contains the score, `none`
when the loop falls through. -/
def severityScan (score : Int) : List (Int × Int × String) → Option String
  | [] => none
  | (lo, hi, label) :: rest =>
      if lo ≤ score ∧ score ≤ hi then some label else severityScan score rest

/-- `severity_for` from `src/main.py`: the loop above, with the
`return bands[-1][2]` fallback when no band matched (empty-table lookup,
which would raise in Python, is given the inert default `""`). -/
def severity_for (score : Int) (bands : List (Int × Int × String)) : String :=
  match severityScan score bands with
  | some label => label
  | none => ((bands.getLast?).map (fun b => b.2.2)).getD ""

/-- `sum(answers[i] for i in idxs)`: the generator-sum over a fixed index
list.  Under the valid-input guard every index is in bounds, so the
out-of-bounds default 0 of `getD` is never consulted. -/
def sumAt (answers : List Int) (idxs : List Nat) : Int :=
  (idxs.map (fun i => answers.getD i 0)).sum

/-- The validity guard of `score_dass`
(`len(answers) != 21 or any(a not in (0,1,2,3) for a in answers)`). -/
def invalidAnswers (answers : List Int) : Bool :=
  answers.length != 21 ||
    answers.any (fun a => !(a == 0 || a == 1 || a == 2 || a == 3))

/-- The valid-input precondition as a proposition: exactly 21 answers, each
in {0,1,2,3}. -/
def validAnswers (answers : List Int) : Prop :=
  answers.length = 21 ∧ ∀ a ∈ answers, a = 0 ∨ a = 1 ∨ a = 2 ∨ a = 3

instance (answers : List Int) : Decidable (validAnswers answers) := by
  unfold validAnswers
  exact inferInstance

/-- The `DASSResult(...)` value built by `score_dass` before the persistence
try-block runs: the six scoring fields plus the full-array total, with
`assessment_id` not yet assigned. -/
def baseResult (answers : List Int) : DASSResult :=
  let dep := sumAt answers DEP_I
  let anx := sumAt answers ANX_I
  let stress := sumAt answers STR_I
  { depression_score := dep
    anxiety_score := anx
    stress_score := stress
    depression_severity := severity_for dep DEP_THRESH
    anxiety_severity := severity_for anx ANX_THRESH
    stress_severity := severity_for stress STR_THRESH
    total_score := answers.sum
    assessment_id := none }

/-- The observable outcome of one call to the `/api/score` handler: the HTTP
response (error detail or result body) and how many times the persistence
collaborator `create_document` was invoked. -/
structure ScoreOutcome where
  response : Except String DASSResult
  persistAttempts : Nat
  deriving Repr

/-- `score_dass` from `src/main.py`.  `persistOutcome` is the oracle for the
`create_document` call inside the try-block: `some inserted_id` models a
successful insert, `none` models any raised exception (caught and
swallowed, skipping only the `assessment_id` assignment). -/
def score_dass (answers : List Int) (persistOutcome : Option String) :
    ScoreOutcome :=
  if invalidAnswers answers then
    { response := Except.error "answers must be 21 integers each 0-3"
      persistAttempts := 0 }
  else
    let result := baseResult answers
    match persistOutcome with
    | some inserted_id =>
        { response := Except.ok { result with assessment_id := some inserted_id }
          persistAttempts := 1 }
    | none =>
        { response := Except.ok result
          persistAttempts := 1 }

/-! ## Shared helper lemmas -/

/-- The boolean guard of `score_dass` fails exactly on the valid inputs. -/
theorem invalidAnswers_eq_false (answers : List Int) :
    invalidAnswers answers = false ↔ validAnswers answers := by
  simp [invalidAnswers, validAnswers]
  intro _
  constructor
  · intro h a ha
    have := h a ha
    tauto
  · intro h a ha
    have := h a ha
    tauto

/-- Reading every position of a list back with `getD` reproduces the list. -/
theorem map_getD_range (l : List Int) :
    (List.range l.length).map (fun i => l.getD i 0) = l := by
  induction l with
  | nil => rfl
  | cons a t ih =>
      simp only [List.length_cons, List.range_succ_eq_map, List.map_cons,
        List.map_map]
      have h2 : ((fun i => (a :: t).getD i 0) ∘ Nat.succ) =
          (fun i => t.getD i 0) := by
        funext i
        simp [List.getD_cons_succ]
      rw [List.getD_cons_zero, h2, ih]

/-- The three 0-based index lists together are a permutation of 0..20. -/
theorem indices_perm : (DEP_I ++ ANX_I ++ STR_I).Perm (List.range 21) := by
  decide

/-- Under the value-range part of validity, every `getD` read is in [0,3]. -/
theorem getD_mem_range (answers : List Int)
    (h : ∀ a ∈ answers, a = 0 ∨ a = 1 ∨ a = 2 ∨ a = 3) (i : Nat) :
    0 ≤ answers.getD i 0 ∧ answers.getD i 0 ≤ 3 := by
  rcases lt_or_ge i answers.length with hi | hi
  · have hmem : answers.getD i 0 ∈ answers := by
      rw [List.getD_eq_getElem _ _ hi]
      exact List.getElem_mem hi
    have := h _ hmem
    omega
  · rw [List.getD_eq_default _ _ hi]
    omega

/-- A generator-sum over `k` indices of answers in [0,3] lies in [0, 3k]. -/
theorem sumAt_bounds (answers : List Int)
    (h : ∀ a ∈ answers, a = 0 ∨ a = 1 ∨ a = 2 ∨ a = 3) (idxs : List Nat) :
    0 ≤ sumAt answers idxs ∧ sumAt answers idxs ≤ 3 * idxs.length := by
  induction idxs with
  | nil => simp [sumAt]
  | cons i t ih =>
      have hb := getD_mem_range answers h i
      simp only [sumAt, List.map_cons, List.sum_cons, List.length_cons] at *
      constructor
      · have := ih.1
        omega
      · have := ih.2
        push_cast
        omega

/-- The full-array sum of answers in [0,3] lies in [0, 3·length]. -/
theorem list_sum_bounds (answers : List Int)
    (h : ∀ a ∈ answers, a = 0 ∨ a = 1 ∨ a = 2 ∨ a = 3) :
    0 ≤ answers.sum ∧ answers.sum ≤ 3 * answers.length := by
  induction answers with
  | nil => simp
  | cons a t ih =>
      have ha := h a (List.mem_cons_self a t)
      have ht := ih (fun x hx => h x (List.mem_cons_of_mem a hx))
      simp only [List.sum_cons, List.length_cons]
      push_cast
      omega

/-- On a valid input `score_dass` takes the non-error path: one persistence
attempt, response `ok`, body determined by the persistence oracle. -/
theorem score_dass_valid_eq (answers : List Int) (p : Option String)
    (h : validAnswers answers) :
    score_dass answers p =
      { response := Except.ok (match p with
          | some inserted_id =>
              { baseResult answers with assessment_id := some inserted_id }
          | none => baseResult answers)
        persistAttempts := 1 } := by
  have hinv : invalidAnswers answers = false :=
    (invalidAnswers_eq_false answers).mpr h
  unfold score_dass
  rw [hinv]
  cases p <;> rfl

/-- On a valid 21-answer input the full-array sum coincides with the sum of
the three subscale generator-sums, because the index lists are a
permutation of 0..20. -/
theorem total_eq (answers : List Int) (h : validAnswers answers) :
    answers.sum =
      sumAt answers DEP_I + sumAt answers ANX_I + sumAt answers STR_I := by
  have hperm : ((DEP_I ++ ANX_I ++ STR_I).map (fun i => answers.getD i 0)).Perm
      ((List.range 21).map (fun i => answers.getD i 0)) :=
    indices_perm.map _
  have hsum := hperm.sum_eq
  simp only [List.map_append, List.sum_append] at hsum
  have hr : (List.range 21).map (fun i => answers.getD i 0) = answers := by
    rw [← h.1]
    exact map_getD_range answers
  rw [hr] at hsum
  simp only [sumAt]
  omega

/-- The depression band scan hits a band for every score in [0,21]. -/
theorem scan_dep_some (s : Int) (h0 : 0 ≤ s) (h1 : s ≤ 21) :
    (severityScan s DEP_THRESH).isSome = true := by
  simp only [DEP_THRESH, severityScan]
  split_ifs <;> simp_all
  omega

/-- The anxiety band scan hits a band for every score in [0,21]. -/
theorem scan_anx_some (s : Int) (h0 : 0 ≤ s) (h1 : s ≤ 21) :
    (severityScan s ANX_THRESH).isSome = true := by
  simp only [ANX_THRESH, severityScan]
  split_ifs <;> simp_all
  omega

/-- The stress band scan hits a band for every score in [0,21]. -/
theorem scan_str_some (s : Int) (h0 : 0 ≤ s) (h1 : s ≤ 21) :
    (severityScan s STR_THRESH).isSome = true := by
  simp only [STR_THRESH, severityScan]
  split_ifs <;> simp_all
  omega

/-! ## Claim theorems -/

/-- C1: on every valid input (21 answers, each in {0,1,2,3}) the response of
`score_dass` is a result whose depression/anxiety/stress scores are the
generator-sums of the answers at the 0-based index lists derived from the
1-based `DEPRESSION_IDX`/`ANXIETY_IDX`/`STRESS_IDX`, each subscale score
lies in [0,21], and the total score lies in [0,63]. -/
theorem score_dass_valid_scores (answers : List Int) (p : Option String)
    (h : validAnswers answers) :
    ∃ r : DASSResult, (score_dass answers p).response = Except.ok r ∧
      r.depression_score = sumAt answers (DEPRESSION_IDX.map (fun i => i - 1)) ∧
      r.anxiety_score = sumAt answers (ANXIETY_IDX.map (fun i => i - 1)) ∧
      r.stress_score = sumAt answers (STRESS_IDX.map (fun i => i - 1)) ∧
      0 ≤ r.depression_score ∧ r.depression_score ≤ 21 ∧
      0 ≤ r.anxiety_score ∧ r.anxiety_score ≤ 21 ∧
      0 ≤ r.stress_score ∧ r.stress_score ≤ 21 ∧
      0 ≤ r.total_score ∧ r.total_score ≤ 63 := by
  have hd := sumAt_bounds answers h.2 DEP_I
  have ha := sumAt_bounds answers h.2 ANX_I
  have hs := sumAt_bounds answers h.2 STR_I
  have ht := list_sum_bounds answers h.2
  rw [h.1] at ht
  rw [score_dass_valid_eq answers p h]
  cases p with
  | none =>
      refine ⟨baseResult answers, rfl, rfl, rfl, rfl, ?_⟩
      simp only [baseResult]
      norm_num at hd ha hs ht
      exact ⟨hd.1, hd.2, ha.1, ha.2, hs.1, hs.2, ht.1, ht.2⟩
  | some inserted_id =>
      refine ⟨{ baseResult answers with assessment_id := some inserted_id },
        rfl, rfl, rfl, rfl, ?_⟩
      simp only [baseResult]
      norm_num at hd ha hs ht
      exact ⟨hd.1, hd.2, ha.1, ha.2, hs.1, hs.2, ht.1, ht.2⟩

/-- C1 witness: the theorem instantiated at the all-ones answer sheet. -/
theorem score_dass_valid_scores_witness :
    ∃ r : DASSResult,
      (score_dass (List.replicate 21 1) none).response = Except.ok r ∧
      r.depression_score =
        sumAt (List.replicate 21 1) (DEPRESSION_IDX.map (fun i => i - 1)) ∧
      r.anxiety_score =
        sumAt (List.replicate 21 1) (ANXIETY_IDX.map (fun i => i - 1)) ∧
      r.stress_score =
        sumAt (List.replicate 21 1) (STRESS_IDX.map (fun i => i - 1)) ∧
      0 ≤ r.depression_score ∧ r.depression_score ≤ 21 ∧
      0 ≤ r.anxiety_score ∧ r.anxiety_score ≤ 21 ∧
      0 ≤ r.stress_score ∧ r.stress_score ≤ 21 ∧
      0 ≤ r.total_score ∧ r.total_score ≤ 63 :=
  score_dass_valid_scores (List.replicate 21 1) none (by decide)

/-- C2: `score_dass` answers with the invalid-input error exactly when the
answers list has length ≠ 21 or an element outside {0,1,2,3}; on rejection
no persistence attempt is made, and on every valid input the response is a
successful result. -/
theorem score_dass_reject_iff (answers : List Int) (p : Option String) :
    (((score_dass answers p).response =
        Except.error "answers must be 21 integers each 0-3") ↔
      (answers.length ≠ 21 ∨ ∃ a ∈ answers, ¬(a = 0 ∨ a = 1 ∨ a = 2 ∨ a = 3)))
    ∧ ((score_dass answers p).response =
        Except.error "answers must be 21 integers each 0-3" →
        (score_dass answers p).persistAttempts = 0)
    ∧ (validAnswers answers →
        ∃ r, (score_dass answers p).response = Except.ok r) := by
  by_cases h : validAnswers answers
  · have heq := score_dass_valid_eq answers p h
    rw [heq]
    refine ⟨?_, by simp, fun _ => ?_⟩
    · simp only [validAnswers] at h
      constructor
      · intro hbad
        cases p <;> simp at hbad
      · intro hbad
        rcases hbad with hl | ⟨a, ha, hv⟩
        · exact absurd h.1 hl
        · exact absurd (h.2 a ha) hv
    · cases p with
      | none => exact ⟨baseResult answers, rfl⟩
      | some inserted_id =>
          exact ⟨{ baseResult answers with assessment_id := some inserted_id },
            rfl⟩
  · have hinv : invalidAnswers answers = true := by
      rcases Bool.eq_false_or_eq_true (invalidAnswers answers) with ht | hf
      · exact ht
      · exact absurd ((invalidAnswers_eq_false answers).mp hf) h
    have heq : score_dass answers p =
        { response := Except.error "answers must be 21 integers each 0-3"
          persistAttempts := 0 } := by
      unfold score_dass
      rw [hinv]
      rfl
    rw [heq]
    refine ⟨?_, fun _ => rfl, fun hv => absurd hv h⟩
    simp only [validAnswers] at h
    push_neg at h
    constructor
    · intro _
      by_cases hl : answers.length = 21
      · obtain ⟨a, ha, hv⟩ := h hl
        exact Or.inr ⟨a, ha, by tauto⟩
      · exact Or.inl hl
    · intro _
      rfl

/-- C2 witness: the theorem instantiated at the all-twos answer sheet. -/
theorem score_dass_reject_iff_witness :
    ∃ r, (score_dass (List.replicate 21 2) none).response = Except.ok r :=
  (score_dass_reject_iff (List.replicate 21 2) none).2.2 (by decide)

/-- C3: on every valid input the returned total score is the full-array sum
of all 21 answers and equals the sum of the three subscale scores. -/
theorem score_dass_total_eq (answers : List Int) (p : Option String)
    (h : validAnswers answers) :
    ∃ r : DASSResult, (score_dass answers p).response = Except.ok r ∧
      r.total_score = answers.sum ∧
      r.total_score = r.depression_score + r.anxiety_score + r.stress_score := by
  have htot := total_eq answers h
  rw [score_dass_valid_eq answers p h]
  cases p with
  | none => exact ⟨baseResult answers, rfl, rfl, htot⟩
  | some inserted_id =>
      exact ⟨{ baseResult answers with assessment_id := some inserted_id },
        rfl, rfl, htot⟩

/-- C3 witness: the theorem instantiated at the all-threes answer sheet. -/
theorem score_dass_total_eq_witness :
    ∃ r : DASSResult,
      (score_dass (List.replicate 21 3) none).response = Except.ok r ∧
      r.total_score = (List.replicate 21 3 : List Int).sum ∧
      r.total_score = r.depression_score + r.anxiety_score + r.stress_score :=
  score_dass_total_eq (List.replicate 21 3) none (by decide)

/-- C4: the three 7-element index sets partition the 21 answer positions:
each list has 7 distinct entries, the lists are pairwise disjoint, their
concatenation is a permutation of 0..20 so every 0-based index below 21 is
covered, and the same holds for the 1-based sets over 1..21. -/
theorem index_sets_partition :
    DEP_I.length = 7 ∧ ANX_I.length = 7 ∧ STR_I.length = 7 ∧
    DEP_I.Nodup ∧ ANX_I.Nodup ∧ STR_I.Nodup ∧
    (∀ i ∈ DEP_I, i ∉ ANX_I) ∧ (∀ i ∈ DEP_I, i ∉ STR_I) ∧
    (∀ i ∈ ANX_I, i ∉ STR_I) ∧
    (DEP_I ++ ANX_I ++ STR_I).Perm (List.range 21) ∧
    (∀ n : Nat, n < 21 → (n ∈ DEP_I ∨ n ∈ ANX_I ∨ n ∈ STR_I)) ∧
    (∀ i ∈ DEPRESSION_IDX, i ∉ ANXIETY_IDX) ∧
    (∀ i ∈ DEPRESSION_IDX, i ∉ STRESS_IDX) ∧
    (∀ i ∈ ANXIETY_IDX, i ∉ STRESS_IDX) ∧
    (∀ n : Nat, 1 ≤ n → n ≤ 21 →
      (n ∈ DEPRESSION_IDX ∨ n ∈ ANXIETY_IDX ∨ n ∈ STRESS_IDX)) := by
  refine ⟨rfl, rfl, rfl, by decide, by decide, by decide, by decide, by decide,
    by decide, by decide, by decide, by decide, by decide, by decide, ?_⟩
  decide

/-- C4 witness: the coverage clauses instantiated at index 5 (0-based) and
item 5 (1-based). -/
theorem index_sets_partition_witness :
    (5 ∈ DEP_I ∨ 5 ∈ ANX_I ∨ 5 ∈ STR_I) ∧
    (5 ∈ DEPRESSION_IDX ∨ 5 ∈ ANXIETY_IDX ∨ 5 ∈ STRESS_IDX) :=
  ⟨index_sets_partition.2.2.2.2.2.2.2.2.2.2.1 5 (by decide),
   index_sets_partition.2.2.2.2.2.2.2.2.2.2.2.2.2.2 5 (by decide) (by decide)⟩

/-- C5: the band tables are exactly the ranges stated in the spec, and for
each subscale every integer score in [0,21] lies in exactly one band, whose
label is what `severity_for` returns. -/
theorem severity_bands_partition :
    DEP_THRESH = [(0, 4, "Normal"), (5, 6, "Mild"), (7, 10, "Moderate"),
      (11, 13, "Severe"), (14, 42, "Extremely Severe")] ∧
    ANX_THRESH = [(0, 3, "Normal"), (4, 5, "Mild"), (6, 7, "Moderate"),
      (8, 9, "Severe"), (10, 42, "Extremely Severe")] ∧
    STR_THRESH = [(0, 7, "Normal"), (8, 9, "Mild"), (10, 12, "Moderate"),
      (13, 16, "Severe"), (17, 42, "Extremely Severe")] ∧
    ∀ n : Nat, n < 22 →
      (DEP_THRESH.countP
          (fun b => decide (b.1 ≤ (n : Int)) && decide ((n : Int) ≤ b.2.1)) = 1 ∧
        ∀ b ∈ DEP_THRESH, b.1 ≤ (n : Int) ∧ (n : Int) ≤ b.2.1 →
          severity_for (n : Int) DEP_THRESH = b.2.2) ∧
      (ANX_THRESH.countP
          (fun b => decide (b.1 ≤ (n : Int)) && decide ((n : Int) ≤ b.2.1)) = 1 ∧
        ∀ b ∈ ANX_THRESH, b.1 ≤ (n : Int) ∧ (n : Int) ≤ b.2.1 →
          severity_for (n : Int) ANX_THRESH = b.2.2) ∧
      (STR_THRESH.countP
          (fun b => decide (b.1 ≤ (n : Int)) && decide ((n : Int) ≤ b.2.1)) = 1 ∧
        ∀ b ∈ STR_THRESH, b.1 ≤ (n : Int) ∧ (n : Int) ≤ b.2.1 →
          severity_for (n : Int) STR_THRESH = b.2.2) := by
  refine ⟨rfl, rfl, rfl, ?_⟩
  decide

/-- C5 witness: score 5 lies in exactly one depression band and
`severity_for` returns that band's label. -/
theorem severity_bands_partition_witness :
    DEP_THRESH.countP
      (fun b => decide (b.1 ≤ (5 : Int)) && decide ((5 : Int) ≤ b.2.1)) = 1 ∧
    severity_for (5 : Int) DEP_THRESH = "Mild" :=
  ⟨(severity_bands_partition.2.2.2 5 (by decide)).1.1,
   (severity_bands_partition.2.2.2 5 (by decide)).1.2 (5, 6, "Mild")
     (by decide) (by decide)⟩

/-- C6: at the Normal/Mild boundaries, depression 4 ↦ Normal and 5 ↦ Mild,
anxiety 3 ↦ Normal and 4 ↦ Mild, stress 7 ↦ Normal and 8 ↦ Mild. -/
theorem severity_boundaries :
    severity_for 4 DEP_THRESH = "Normal" ∧
    severity_for 5 DEP_THRESH = "Mild" ∧
    severity_for 3 ANX_THRESH = "Normal" ∧
    severity_for 4 ANX_THRESH = "Mild" ∧
    severity_for 7 STR_THRESH = "Normal" ∧
    severity_for 8 STR_THRESH = "Mild" := by
  decide

/-- C7: when the persistence collaborator fails (the oracle is `none`, i.e.
`create_document` raised), `score_dass` on a valid input still responds with
the fully computed scoring result, its `assessment_id` left unset; the
persistence attempt was made but its failure is not surfaced. -/
theorem persist_failure_graceful (answers : List Int)
    (h : validAnswers answers) :
    (score_dass answers none).response = Except.ok (baseResult answers) ∧
    (baseResult answers).assessment_id = none ∧
    (score_dass answers none).persistAttempts = 1 := by
  rw [score_dass_valid_eq answers none h]
  exact ⟨rfl, rfl, rfl⟩

/-- C7 witness: the theorem instantiated at the all-zeros answer sheet. -/
theorem persist_failure_graceful_witness :
    (score_dass (List.replicate 21 0) none).response =
      Except.ok (baseResult (List.replicate 21 0)) ∧
    (baseResult (List.replicate 21 0)).assessment_id = none ∧
    (score_dass (List.replicate 21 0) none).persistAttempts = 1 :=
  persist_failure_graceful (List.replicate 21 0) (by decide)

/-- C8: scoring is deterministic and independent of the persistence outcome:
for any two invocations on the same valid answers (with arbitrary
persistence oracles `p` and `q`) the six scoring fields and the total score
of the two responses coincide. -/
theorem scoring_deterministic (answers : List Int) (p q : Option String)
    (h : validAnswers answers) :
    ∃ r s : DASSResult,
      (score_dass answers p).response = Except.ok r ∧
      (score_dass answers q).response = Except.ok s ∧
      r.depression_score = s.depression_score ∧
      r.anxiety_score = s.anxiety_score ∧
      r.stress_score = s.stress_score ∧
      r.depression_severity = s.depression_severity ∧
      r.anxiety_severity = s.anxiety_severity ∧
      r.stress_severity = s.stress_severity ∧
      r.total_score = s.total_score := by
  rw [score_dass_valid_eq answers p h, score_dass_valid_eq answers q h]
  cases p <;> cases q <;>
    exact ⟨_, _, rfl, rfl, rfl, rfl, rfl, rfl, rfl, rfl, rfl⟩

/-- C8 witness: the theorem instantiated at the all-ones sheet with a failed
and a successful persistence outcome. -/
theorem scoring_deterministic_witness :
    ∃ r s : DASSResult,
      (score_dass (List.replicate 21 1) none).response = Except.ok r ∧
      (score_dass (List.replicate 21 1) (some "id1")).response = Except.ok s ∧
      r.depression_score = s.depression_score ∧
      r.anxiety_score = s.anxiety_score ∧
      r.stress_score = s.stress_score ∧
      r.depression_severity = s.depression_severity ∧
      r.anxiety_severity = s.anxiety_severity ∧
      r.stress_severity = s.stress_severity ∧
      r.total_score = s.total_score :=
  scoring_deterministic (List.replicate 21 1) none (some "id1") (by decide)

/-- C9: under the valid-input precondition every converted 0-based index is
below the list length 21, and for each subscale the band scan finds a band
(the `bands[-1]` fallback of `severity_for` is unreachable), because each
subscale generator-sum lies in [0,21]. -/
theorem valid_input_safety (answers : List Int) (h : validAnswers answers) :
    (∀ i ∈ DEP_I, i < answers.length) ∧
    (∀ i ∈ ANX_I, i < answers.length) ∧
    (∀ i ∈ STR_I, i < answers.length) ∧
    (severityScan (sumAt answers DEP_I) DEP_THRESH).isSome = true ∧
    (severityScan (sumAt answers ANX_I) ANX_THRESH).isSome = true ∧
    (severityScan (sumAt answers STR_I) STR_THRESH).isSome = true := by
  have hd := sumAt_bounds answers h.2 DEP_I
  have ha := sumAt_bounds answers h.2 ANX_I
  have hs := sumAt_bounds answers h.2 STR_I
  norm_num at hd ha hs
  rw [h.1]
  refine ⟨by decide, by decide, by decide, ?_, ?_, ?_⟩
  · exact scan_dep_some _ hd.1 hd.2
  · exact scan_anx_some _ ha.1 ha.2
  · exact scan_str_some _ hs.1 hs.2

/-- C9 witness: the theorem instantiated at the all-threes answer sheet. -/
theorem valid_input_safety_witness :
    (∀ i ∈ DEP_I, i < (List.replicate 21 (3 : Int)).length) ∧
    (∀ i ∈ ANX_I, i < (List.replicate 21 (3 : Int)).length) ∧
    (∀ i ∈ STR_I, i < (List.replicate 21 (3 : Int)).length) ∧
    (severityScan (sumAt (List.replicate 21 3) DEP_I) DEP_THRESH).isSome = true ∧
    (severityScan (sumAt (List.replicate 21 3) ANX_I) ANX_THRESH).isSome = true ∧
    (severityScan (sumAt (List.replicate 21 3) STR_I) STR_THRESH).isSome = true :=
  valid_input_safety (List.replicate 21 3) (by decide)

/-- C10: persistence touches only `assessment_id`: on a valid input the
failed-persistence response is exactly `baseResult`, the successful one is
`baseResult` with only `assessment_id` set to the returned identity string,
and the six scoring fields and total of the two responses are equal. -/
theorem persistence_frame (answers : List Int) (inserted_id : String)
    (h : validAnswers answers) :
    (score_dass answers none).response = Except.ok (baseResult answers) ∧
    (score_dass answers (some inserted_id)).response =
      Except.ok { baseResult answers with assessment_id := some inserted_id } ∧
    (baseResult answers).assessment_id = none ∧
    ({ baseResult answers with assessment_id := some inserted_id } :
      DASSResult) =
      { depression_score := (baseResult answers).depression_score
        anxiety_score := (baseResult answers).anxiety_score
        stress_score := (baseResult answers).stress_score
        depression_severity := (baseResult answers).depression_severity
        anxiety_severity := (baseResult answers).anxiety_severity
        stress_severity := (baseResult answers).stress_severity
        total_score := (baseResult answers).total_score
        assessment_id := some inserted_id } := by
  rw [score_dass_valid_eq answers none h,
    score_dass_valid_eq answers (some inserted_id) h]
  exact ⟨rfl, rfl, rfl, rfl⟩

/-- C10 witness: the theorem instantiated at the all-zeros answer sheet with
identity string "abc". -/
theorem persistence_frame_witness :
    (score_dass (List.replicate 21 0) none).response =
      Except.ok (baseResult (List.replicate 21 0)) ∧
    (score_dass (List.replicate 21 0) (some "abc")).response =
      Except.ok
        { baseResult (List.replicate 21 0) with assessment_id := some "abc" } ∧
    (baseResult (List.replicate 21 0)).assessment_id = none ∧
    ({ baseResult (List.replicate 21 0) with assessment_id := some "abc" } :
      DASSResult) =
      { depression_score := (baseResult (List.replicate 21 0)).depression_score
        anxiety_score := (baseResult (List.replicate 21 0)).anxiety_score
        stress_score := (baseResult (List.replicate 21 0)).stress_score
        depression_severity :=
          (baseResult (List.replicate 21 0)).depression_severity
        anxiety_severity := (baseResult (List.replicate 21 0)).anxiety_severity
        stress_severity := (baseResult (List.replicate 21 0)).stress_severity
        total_score := (baseResult (List.replicate 21 0)).total_score
        assessment_id := some "abc" } :=
  persistence_frame (List.replicate 21 0) "abc" (by decide)

end DASS
